import Mathlib

/-
Verification of the files subsystem (src/files/files.cpp): the virtual-path
namespace (attach/detach), the resolver with its longest-prefix match and
escape check, and the browse/read/download HTTP handlers.

Strings are modelled byte-for-byte as lists of characters (the inputs of
interest are ASCII); machine integers (off_t, ssize_t, size_t: 64 bits) are
modelled as Int/Nat with explicit reduction modulo 2^64 at the one place the
code converts a signed value to size_t. Filesystem and OS calls (realpath,
isdir, access, open, lseek, fcntl, ls, stat, basename) are oracles packaged
in an `Env` structure; each handler is a pure function of the environment,
the namespace map and the request.
-/

deriving instance DecidableEq for Except

namespace MesosFiles

/-- One pass of stout strings::remove(s, "/", SUFFIX): drop a single trailing
slash when present. -/
def removeSlashSfxChars (l : List Char) : List Char :=
  if l.getLast? = some '/' then l.dropLast else l

/-- One pass of stout strings::remove(s, "/", PREFIX): drop a single leading
slash when present. -/
def removeSlashPreChars : List Char → List Char
  | '/' :: rest => rest
  | l => l

/-- stout strings::split(s, "/"): split on every slash, keeping empty
tokens (so a leading slash yields a leading empty token). -/
def splitSlashChars : List Char → List (List Char)
  | [] => [[]]
  | c :: rest =>
    if c = '/' then [] :: splitSlashChars rest
    else
      match splitSlashChars rest with
      | [] => [[c]]
      | t :: ts => (c :: t) :: ts

/-- stout path::join(a, b): strip one trailing slash from a, one leading
slash from b, and glue with a single slash. -/
def join2Chars (a b : List Char) : List Char :=
  removeSlashSfxChars a ++ '/' :: removeSlashPreChars b

def strRemoveSlashSfx (s : String) : String :=
  String.mk (removeSlashSfxChars s.data)

def splitSlash (s : String) : List String :=
  (splitSlashChars s.data).map String.mk

def strJoin2 (a b : String) : String :=
  String.mk (join2Chars a.data b.data)

/-- stout path::join(vector): seed with the first element, fold the binary
join over the rest; the empty vector joins to the empty string. -/
def pathJoinL : List String → String
  | [] => ""
  | p :: ps => ps.foldl strJoin2 p

/-- stout strings::startsWith: a plain string-prefix test (byte-wise). -/
def strStartsWith (s pre : String) : Bool :=
  pre.data.isPrefixOf s.data

def digitVal (c : Char) : Option Nat :=
  if c.isDigit then some (c.toNat - 48) else none

def digitsValAux : List Char → Nat → Option Nat
  | [], acc => some acc
  | c :: rest, acc =>
    match digitVal c with
    | none => none
    | some d => digitsValAux rest (acc * 10 + d)

/-- Value of a nonempty all-digit string; none otherwise. -/
def digitsVal (l : List Char) : Option Nat :=
  match l with
  | [] => none
  | _ :: _ => digitsValAux l 0

/-- Modelled from the spec: stout numify (the query-parameter integer parser,
declared in stout/numify.hpp, not under src/). The spec calls offset and
length "optional integer" parameters whose parse failure yields bad-request;
numify is lexical_cast to a 64-bit signed integer: an optional sign followed
by decimal digits, rejecting malformed input and out-of-range values. -/
def numify (s : String) : Except String Int :=
  let err : Except String Int :=
    .error ("Failed to convert '" ++ s ++ "' into a number")
  match s.data with
  | '-' :: rest =>
    match digitsVal rest with
    | some n => if (n : Int) ≤ 2 ^ 63 then .ok (-(n : Int)) else err
    | none => err
  | '+' :: rest =>
    match digitsVal rest with
    | some n => if (n : Int) < 2 ^ 63 then .ok (n : Int) else err
    | none => err
  | l =>
    match digitsVal l with
    | some n => if (n : Int) < 2 ^ 63 then .ok (n : Int) else err
    | none => err

/-- stat information consumed by the browse handler's per-child descriptor. -/
structure StatInfo where
  isDir : Bool
  size : Int
deriving DecidableEq

/-- Modelled from the spec: files::jsonFileInfo (declared in files.hpp, not
under src/) builds one browse descriptor per child: its virtual path, whether
it is a directory, and its size in bytes. -/
structure FileInfo where
  path : String
  dir : Bool
  size : Int
deriving DecidableEq

/-- The OS/filesystem oracles the handlers call. `fileSize` is the result of
lseek(fd, 0, SEEK_END) on the opened file (-1 encodes failure, as in the
code's own check); `nonblock` is os::nonblock on the opened descriptor;
`errnoMsg` is strerror(errno) at a failing lseek. -/
structure Env where
  realpath : String → Except String String
  isdir : String → Bool
  access : String → Except String Bool
  openR : String → Except String Unit
  fileSize : String → Int
  seekOk : String → Int → Bool
  nonblock : Except String Unit
  errnoMsg : String
  pageSize : Int
  ls : String → List String
  stat : String → Option StatInfo
  basename : String → Except String String
  mimeTypes : List (String × String)

/-- The hashmap<string, string> of virtual name → canonical real path. -/
abbrev Paths := List (String × String)

def pathsLookup (m : Paths) (k : String) : Option String :=
  List.lookup k m

/-- hashmap operator[] assignment: overwrite the entry if the key exists,
otherwise add it. -/
def hashmapPut (m : Paths) (k v : String) : Paths :=
  match m with
  | [] => [(k, v)]
  | (k', v') :: rest =>
    if k' = k then (k, v) :: rest else (k', v') :: hashmapPut rest k v

/-- Result<string> as returned by FilesProcess::resolve: an error, None
(not found), or the resolved actual path. -/
inductive ResolveResult where
  | error (msg : String)
  | notFound
  | found (p : String)
deriving DecidableEq

/-- The prefix-shrinking loop of FilesProcess::resolve, lines 390-433.
`revToks` carries the remaining tokens in reverse so that popping the last
token is structural; the prefix tried at each step is the path::join of the
tokens in their original order. -/
def resolveLoop (env : Env) (ps : Paths) : List String → String → ResolveResult
  | [], _ => .notFound
  | t :: ts, sfx =>
    let pfx := pathJoinL (t :: ts).reverse
    match pathsLookup ps pfx with
    | none =>
      let sfx' := if sfx = "" then t else strJoin2 t sfx
      resolveLoop env ps ts sfx'
    | some target =>
      if env.isdir target then
        let p2 := strJoin2 target sfx
        match env.realpath p2 with
        | .error e =>
          .error ("Failed to determine canonical path of '" ++ p2 ++ "': " ++ e)
        | .ok rp =>
          if strStartsWith rp target then .found rp
          else .error ("'" ++ p2 ++ "' is inaccessible")
      else if sfx = "" then .found target
      else .notFound

/-- FilesProcess::resolve: strip one trailing slash, split on slashes, and
run the longest-prefix loop with an empty suffix. -/
def resolve (env : Env) (ps : Paths) (path : String) : ResolveResult :=
  resolveLoop env ps (splitSlash (strRemoveSlashSfx path)).reverse ""

/-- FilesProcess::attach: canonicalize the real path, require read access,
strip a trailing slash from the virtual name, store/overwrite the mapping. -/
def attach (env : Env) (ps : Paths) (path name : String) : Except String Paths :=
  match env.realpath path with
  | .error e =>
    .error ("Failed to get realpath of '" ++ path ++ "': " ++ e)
  | .ok result =>
    match env.access result with
    | .error e => .error ("Failed to access '" ++ path ++ "': " ++ e)
    | .ok b =>
      if b then .ok (hashmapPut ps (strRemoveSlashSfx name) result)
      else .error ("Failed to access '" ++ path ++ "': Access denied")

/-- FilesProcess::detach: erase the mapping if present (no-op otherwise). -/
def detach (ps : Paths) (name : String) : Paths :=
  ps.filter (fun kv => kv.1 ≠ name)

/-- An HTTP request to the files endpoints: the query parameters the
handlers consult (jsonp only wraps the body and is not modelled). -/
structure Request where
  path : Option String
  offset : Option String
  length : Option String
deriving DecidableEq

/-- files::jsonFileInfo, modelled from the spec (declared in files.hpp, not
under src/): one descriptor per child from its virtual path and stat data. -/
def jsonFileInfo (p : String) (s : StatInfo) : FileInfo :=
  { path := p, dir := s.isDir, size := s.size }

/-- std::map<string, JSON::Object> insertion: keep keys sorted, overwrite on
an existing key. -/
def mapInsert (k : String) (v : FileInfo) :
    List (String × FileInfo) → List (String × FileInfo)
  | [] => [(k, v)]
  | (k', v') :: rest =>
    if k < k' then (k, v) :: (k', v') :: rest
    else if k = k' then (k, v) :: rest
    else (k', v') :: mapInsert k v rest

/-- The response of the browse handler. -/
inductive BrowseResponse where
  | badRequest (msg : String)
  | notFound
  | internalServerError (msg : String)
  | ok (listing : List FileInfo)
deriving DecidableEq

/-- FilesProcess::browse: resolve the virtual path, list the directory,
stat each child (skipping children whose stat fails), and return the
descriptors sorted by their full real path (std::map iteration order). -/
def browse (env : Env) (ps : Paths) (req : Request) : BrowseResponse :=
  match req.path with
  | none => .badRequest "Expecting 'path=value' in query.\n"
  | some p =>
    if p = "" then .badRequest "Expecting 'path=value' in query.\n"
    else
      match resolve env ps p with
      | .error e => .internalServerError (e ++ ".\n")
      | .notFound => .notFound
      | .found rp =>
        let files := (env.ls rp).foldl
          (fun acc fn =>
            match env.stat (strJoin2 rp fn) with
            | none => acc
            | some s =>
              mapInsert (strJoin2 rp fn) (jsonFileInfo (strJoin2 p fn) s) acc)
          []
        .ok (files.map Prod.snd)

/-- The JSON body of a read response is {offset, data}; only the byte count
of data is modelled (its content is whatever the read produced). -/
inductive ReadResponse where
  | badRequest (msg : String)
  | notFound
  | internalServerError (msg : String)
  | ok (offset : Int) (dataLen : Nat)
deriving DecidableEq

/-- The observable outcome of one read request: the response, whether an fd
was successfully opened, whether it was closed again by the handler
(including by the _read continuation), and the signed length value handed to
the buffer allocation and io::read when that point is reached. -/
structure ReadOutcome where
  response : ReadResponse
  fdOpened : Bool
  fdClosed : Bool
  issuedReadLen : Option Int
deriving DecidableEq

/-- The shared parse step for the offset and length query parameters:
absent stays at the -1 sentinel, present goes through numify. -/
def parseParam (v : Option String) : Except String Int :=
  match v with
  | none => .ok (-1)
  | some s => numify s

/-- FilesProcess::read after parameter parsing (lines 232-314): resolve,
reject directories, open, size via lseek-to-end, apply the offset/length
defaults and the 16-page cap, return early when offset >= size, seek, set
nonblocking, then read; _read (lines 188-201) closes the fd and reports
{offset, data}. The read delivers min(static_cast<size_t>(length),
bytes-to-EOF) bytes; the size_t cast is the reduction mod 2^64. -/
def readBody (env : Env) (ps : Paths) (p : String) (offset0 len0 : Int) :
    ReadOutcome :=
  match resolve env ps p with
  | .error e => ⟨.badRequest (e ++ ".\n"), false, false, none⟩
  | .notFound => ⟨.notFound, false, false, none⟩
  | .found rp =>
    if env.isdir rp then
      ⟨.badRequest "Cannot read a directory.\n", false, false, none⟩
    else
      match env.openR rp with
      | .error e =>
        ⟨.internalServerError
          ("Failed to open file at '" ++ rp ++ "': " ++ e ++ ".\n"),
          false, false, none⟩
      | .ok _ =>
        let size := env.fileSize rp
        if size = -1 then
          ⟨.internalServerError
            ("Failed to open file at '" ++ rp ++ "': " ++ env.errnoMsg ++ ".\n"),
            true, true, none⟩
        else
          let offset := if offset0 = -1 then size else offset0
          let len1 := if len0 = -1 then size - offset else len0
          let len2 := min len1 (env.pageSize * 16)
          if offset ≥ size then
            ⟨.ok size 0, true, true, none⟩
          else if env.seekOk rp offset then
            match env.nonblock with
            | .error e =>
              ⟨.internalServerError
                ("Failed to set file descriptor nonblocking: " ++ e),
                true, false, none⟩
            | .ok _ =>
              let castLen := (len2 % (2 : Int) ^ 64).toNat
              ⟨.ok offset (min castLen (size - offset).toNat),
                true, true, some len2⟩
          else
            ⟨.internalServerError
              ("Failed to seek file at '" ++ rp ++ "': " ++ env.errnoMsg),
              true, true, none⟩

/-- FilesProcess::read (lines 204-314): validate the path parameter, parse
offset and length (parse failure is a bad request), then run the body. -/
def read (env : Env) (ps : Paths) (req : Request) : ReadOutcome :=
  match req.path with
  | none => ⟨.badRequest "Expecting 'path=value' in query.\n", false, false, none⟩
  | some p =>
    if p = "" then
      ⟨.badRequest "Expecting 'path=value' in query.\n", false, false, none⟩
    else
      match parseParam req.offset with
      | .error e =>
        ⟨.badRequest ("Failed to parse offset: " ++ e ++ ".\n"),
          false, false, none⟩
      | .ok offset0 =>
        match parseParam req.length with
        | .error e =>
          ⟨.badRequest ("Failed to parse length: " ++ e ++ ".\n"),
            false, false, none⟩
        | .ok len0 => readBody env ps p offset0 len0

/-- The substring of a basename from its last dot onward (the dot
included), as computed by find_last_of('.') + substr; none when the
basename has no dot. -/
def extAfterLastDot : List Char → Option (List Char)
  | [] => none
  | c :: rest =>
    match extAfterLastDot rest with
    | some e => some e
    | none => if c = '.' then some (c :: rest) else none

/-- The response of the download handler: the real path served, the
Content-Type, and the Content-Disposition header. -/
inductive DownloadResponse where
  | badRequest (msg : String)
  | notFound
  | internalServerError (msg : String)
  | ok (path contentType dispo : String)
deriving DecidableEq

/-- FilesProcess::download: resolve, reject directories, take the basename,
serve the file as an attachment with a MIME type looked up from the
extension (octet-stream when unknown). -/
def download (env : Env) (ps : Paths) (req : Request) : DownloadResponse :=
  match req.path with
  | none => .badRequest "Expecting 'path=value' in query.\n"
  | some p =>
    if p = "" then .badRequest "Expecting 'path=value' in query.\n"
    else
      match resolve env ps p with
      | .error e => .badRequest (e ++ ".\n")
      | .notFound => .notFound
      | .found rp =>
        if env.isdir rp then .badRequest "Cannot download a directory.\n"
        else
          match env.basename rp with
          | .error e => .internalServerError (e ++ ".\n")
          | .ok bn =>
            let ct :=
              match extAfterLastDot bn.data with
              | none => "application/octet-stream"
              | some ext =>
                match List.lookup (String.mk ext) env.mimeTypes with
                | some t => t
                | none => "application/octet-stream"
            .ok rp ct ("attachment; filename=" ++ bn)

/-- Modelled from the spec: the escape check the design notes call for —
the canonical path must have the attached target as a strict path-ancestor
(equal to it, or strictly below it across a separator), not merely as a
string-prefix, so that a sibling like /a/bfoo does not pass for /a/b. -/
def underDir (d p : String) : Bool :=
  p = d || (d ++ "/").data.isPrefixOf p.data

/-- The length query parameter, when present and parseable, is at least the
-1 sentinel; the negative-length hole in the cap is exactly a parsed length
below -1. -/
def lenParamGE (req : Request) : Bool :=
  match parseParam req.length with
  | .error _ => true
  | .ok v => -1 ≤ v

/-
Concrete oracle environments used by the counterexamples and witnesses.
-/

/-- A baseline environment; each concrete instance overrides the oracles it
exercises. -/
def envBase : Env :=
  { realpath := fun _ => Except.error "No such file or directory"
    isdir := fun _ => false
    access := fun _ => Except.ok true
    openR := fun _ => Except.ok ()
    fileSize := fun _ => 0
    seekOk := fun _ _ => true
    nonblock := Except.ok ()
    errnoMsg := "Input/output error"
    pageSize := 1
    ls := fun _ => []
    stat := fun _ => none
    basename := fun _ => Except.error "No such file or directory"
    mimeTypes := [] }

/-- Directory /a/b attached as n; /a/b/link is a symlink whose canonical
path is the sibling directory /a/bfoo. -/
def env1 : Env := { envBase with
  isdir := fun s => s = "/a/b"
  realpath := fun s =>
    if s = "/a/b/link" then .ok "/a/bfoo"
    else .error "No such file or directory" }

def ps1 : Paths := [("n", "/a/b")]

/-- A 20-byte regular file /r/f inside the directory /r attached as n. -/
def envA : Env := { envBase with
  realpath := fun s =>
    if s = "/r/f" then .ok "/r/f" else .error "No such file or directory"
  isdir := fun s => s = "/r"
  fileSize := fun _ => 20 }

def psA : Paths := [("n", "/r")]

/-- Same file as envA, but os::nonblock on the opened descriptor fails. -/
def envD : Env := { envA with nonblock := Except.error "nb" }

/-- An environment where canonicalizing /r/x fails, so resolving n/x yields
an Error. -/
def envC : Env := { envBase with
  isdir := fun s => s = "/r"
  realpath := fun _ => .error "boom" }

/-- A directory /data that canonicalizes to itself; used to attach under the
doubled-slash virtual name a//b. -/
def env8 : Env := { envBase with
  realpath := fun s =>
    if s = "/data" then .ok "/data" else .error "No such file or directory"
  isdir := fun s => s = "/data" }

/-- A regular file /d that canonicalizes to itself; used for the round-trip
witness under the well-formed virtual name box. -/
def envE : Env := { envBase with
  realpath := fun s =>
    if s = "/d" then .ok "/d" else .error "No such file or directory" }

/-- Two overlapping attachments, /a to /ta and /a/b to /tb, both
directories; /tb/x canonicalizes to itself. -/
def env6 : Env := { envBase with
  isdir := fun s => s = "/tb" ∨ s = "/ta"
  realpath := fun s =>
    if s = "/tb/x" then .ok "/tb/x" else .error "No such file or directory" }

def ps6 : Paths := [("/a", "/ta"), ("/a/b", "/tb")]

/-- A regular (non-directory) file attached as n. -/
def env7 : Env := envBase

def ps7 : Paths := [("n", "/file")]

/-
Theorems settling the claims.
-/

/-- Claim C1: escape prevention fails on the code. With directory /a/b
attached under virtual name n and a symlink n/link whose canonical path is
the sibling /a/bfoo, resolve returns the path /a/bfoo — which is not under
the attached directory in the strict path sense — instead of an Error: the
check at files.cpp:421 is only strings::startsWith, a string-prefix test, so
a resolution escaping to a sibling whose name extends the target's passes. -/
theorem resolve_escape_check_bug :
    resolve env1 ps1 "n/link" = .found "/a/bfoo"
      ∧ underDir "/a/b" "/a/bfoo" = false
      ∧ strStartsWith "/a/bfoo" "/a/b" = true := by
  decide

/-- Claim C3: the file descriptor is not closed on every return path of the
read handler. On a resolvable 20-byte file, after a successful open, a
failing os::nonblock makes the handler return InternalServerError without
os::close: the outcome records an opened, never-closed descriptor. -/
theorem read_nonblock_failure_leaks_fd :
    read envD psA { path := some "n/f", offset := some "0", length := none }
        = ⟨.internalServerError "Failed to set file descriptor nonblocking: nb",
           true, false, none⟩
      ∧ (read envD psA
          { path := some "n/f", offset := some "0", length := none }).fdOpened
          = true
      ∧ (read envD psA
          { path := some "n/f", offset := some "0", length := none }).fdClosed
          = false := by
  decide

/-- Claim C10: a parsed length of -2 with offset 0 on a 20-byte file passes
every error branch: the 16-page cap computed with min leaves the length at
-2, and the handler reaches the buffer allocation and io::read with that
negative length (recorded in issuedReadLen), returning the whole remainder
through the size_t cast. -/
theorem read_negative_length_reaches_io :
    read envA psA { path := some "n/f", offset := some "0", length := some "-2" }
        = ⟨.ok 0 20, true, true, some (-2)⟩
      ∧ min (-2 : Int) (envA.pageSize * 16) = -2
      ∧ (-2 : Int) < -1
      ∧ (0 : Int) < envA.fileSize "/r/f" := by
  decide

/-- Claim C5: the 16-page cap does not bound the bytes returned for every
requested length. With page size 1 (cap 16), a parsed length of -2 on a
20-byte file returns 20 bytes, exceeding the cap. -/
theorem read_cap_negative_length_counterexample :
    (read envA psA
        { path := some "n/f", offset := some "0", length := some "-2" }).response
        = .ok 0 20
      ∧ ¬ ((20 : Int) ≤ 16 * envA.pageSize) := by
  decide

/-- Claim C2: a read request whose path resolution returns an Error is
answered with 400 BadRequest, not 500: files.cpp:235 uses BadRequest (and so
does download at files.cpp:328), refuting the claim that all three handlers
answer 500. -/
theorem read_resolve_error_is_bad_request :
    resolve envC psA "n/x"
        = .error "Failed to determine canonical path of '/r/x': boom"
      ∧ (read envC psA { path := some "n/x", offset := none, length := none }).response
          = .badRequest "Failed to determine canonical path of '/r/x': boom.\n"
      ∧ download envC psA { path := some "n/x", offset := none, length := none }
          = .badRequest "Failed to determine canonical path of '/r/x': boom.\n" := by
  decide

/-- Claim C8: the attach/resolve round trip fails for the virtual name
a//b. attach succeeds (nothing validates the name) and stores the key
"a//b", but resolve rebuilds candidate prefixes with path::join, which
collapses the doubled slash to "a/b"; no prefix ever matches the stored key
and resolve returns NotFound instead of the canonicalized path. -/
theorem attach_resolve_roundtrip_counterexample :
    attach env8 [] "/data" "a//b" = .ok [("a//b", "/data")]
      ∧ resolve env8 [("a//b", "/data")] "a//b" = .notFound := by
  decide

/-- Claim C7: when the longest matching namespace entry maps to a target
that is not a directory, the resolver returns NotFound if the accumulated
suffix is non-empty and the target itself if the suffix is empty — never an
Error. Stated on the prefix-shrinking loop at the step whose full joined
token list hits the namespace, together with the fact that resolve is
exactly that loop started on the split path with an empty suffix. -/
theorem resolve_nondir_target (env : Env) (ps : Paths) :
    (∀ (t : String) (ts : List String) (sfx target : String),
        pathsLookup ps (pathJoinL (t :: ts).reverse) = some target →
        env.isdir target = false →
        resolveLoop env ps (t :: ts) sfx
          = if sfx = "" then .found target else .notFound)
    ∧ ∀ p, resolve env ps p
        = resolveLoop env ps (splitSlash (strRemoveSlashSfx p)).reverse "" := by
  constructor
  · intro t ts sfx target hlk hdir
    simp only [resolveLoop, hlk, hdir, Bool.false_eq_true, if_false]
  · intro p
    rfl

/-- Witness for C7: with the regular file /file attached as n, the loop
state that matched the entry returns NotFound for the pending suffix
"extra" and the target itself for an empty suffix. -/
theorem resolve_nondir_target_witness :
    resolveLoop env7 ps7 ["n"] "extra" = .notFound
      ∧ resolveLoop env7 ps7 ["n"] "" = .found "/file" := by
  have h1 := (resolve_nondir_target env7 ps7).1 "n" [] "extra" "/file"
    (by decide) (by decide)
  have h2 := (resolve_nondir_target env7 ps7).1 "n" [] "" "/file"
    (by decide) (by decide)
  exact ⟨by simpa using h1, by simpa using h2⟩

/-- Claim C9: the -1 sentinel collides with the public interface. A read
request whose offset parameter parses to exactly -1 is handled identically
to one with no offset parameter, and likewise for length; a minus sign
followed by digits parses successfully (within the 64-bit range), and
whenever both parameters parse the handler proceeds into the post-parse
body, so a negative value is never rejected as a bad request. -/
theorem read_sentinel_minus_one (env : Env) (ps : Paths) (req : Request) :
    (∀ s, req.offset = some s → numify s = .ok (-1) →
        read env ps req = read env ps { req with offset := none })
    ∧ (∀ s, req.length = some s → numify s = .ok (-1) →
        read env ps req = read env ps { req with length := none })
    ∧ (∀ (l : List Char) (m : Nat), digitsVal l = some m → (m : Int) ≤ 2 ^ 63 →
        numify (String.mk ('-' :: l)) = .ok (-(m : Int)))
    ∧ ∀ p v w, req.path = some p → p ≠ "" →
        parseParam req.offset = .ok v → parseParam req.length = .ok w →
        read env ps req = readBody env ps p v w := by
  refine ⟨?_, ?_, ?_, ?_⟩
  · intro s hs hnum
    obtain ⟨pa, off, le⟩ := req
    simp only at hs
    subst hs
    cases pa with
    | none => rfl
    | some p =>
      by_cases hpe : p = ""
      · simp [read, hpe]
      · simp [read, hpe, parseParam, hnum]
  · intro s hs hnum
    obtain ⟨pa, off, le⟩ := req
    simp only at hs
    subst hs
    cases pa with
    | none => rfl
    | some p =>
      by_cases hpe : p = ""
      · simp [read, hpe]
      · simp [read, hpe, parseParam, hnum]
  · intro l m hm hb
    have hb' : m ≤ 9223372036854775808 := by exact_mod_cast hb
    simp [numify, hm, hb']
  · intro p v w hp hpe hv hw
    simp [read, hp, hpe, hv, hw]

/-- Witness for C9: on the 20-byte file, offset=-1 produces the same
outcome as an absent offset, length=-1 the same as an absent length, "-7"
parses to -7, and a request with parsed parameters runs the body. -/
theorem read_sentinel_minus_one_witness :
    read envA psA { path := some "n/f", offset := some "-1", length := none }
        = read envA psA { path := some "n/f", offset := none, length := none }
      ∧ read envA psA { path := some "n/f", offset := none, length := some "-1" }
          = read envA psA { path := some "n/f", offset := none, length := none }
      ∧ numify (String.mk ('-' :: ['7'])) = .ok (-(7 : Int))
      ∧ read envA psA { path := some "n/f", offset := some "0", length := some "-2" }
          = readBody envA psA "n/f" 0 (-2) := by
  refine ⟨?_, ?_, ?_, ?_⟩
  · exact (read_sentinel_minus_one envA psA
      { path := some "n/f", offset := some "-1", length := none }).1
      "-1" rfl (by decide)
  · exact (read_sentinel_minus_one envA psA
      { path := some "n/f", offset := none, length := some "-1" }).2.1
      "-1" rfl (by decide)
  · exact (read_sentinel_minus_one envA psA
      { path := some "n/f", offset := none, length := none }).2.2.1
      ['7'] 7 (by decide) (by decide)
  · exact (read_sentinel_minus_one envA psA
      { path := some "n/f", offset := some "0", length := some "-2" }).2.2.2
      "n/f" 0 (-2) rfl (by decide) (by decide) (by decide)

/-- Amended C2: on a path-resolution Error, the browse handler answers 500
InternalServerError, but the read and download handlers answer 400
BadRequest (files.cpp:235 and files.cpp:328), each with the resolver's
message followed by ".\n". -/
theorem resolve_error_status_amended (env : Env) (ps : Paths) (req : Request)
    (p e : String) (hp : req.path = some p) (hpe : p ≠ "")
    (hres : resolve env ps p = .error e) :
    browse env ps req = .internalServerError (e ++ ".\n")
      ∧ download env ps req = .badRequest (e ++ ".\n")
      ∧ ∀ v w, parseParam req.offset = .ok v → parseParam req.length = .ok w →
          (read env ps req).response = .badRequest (e ++ ".\n") := by
  refine ⟨?_, ?_, ?_⟩
  · simp [browse, hp, hpe, hres]
  · simp [download, hp, hpe, hres]
  · intro v w hv hw
    simp [read, hp, hpe, hv, hw, readBody, hres]

/-- Witness for amended C2: the concrete failing canonicalization of /r/x
drives all three handlers. -/
theorem resolve_error_status_amended_witness :
    browse envC psA { path := some "n/x", offset := none, length := none }
        = .internalServerError
            "Failed to determine canonical path of '/r/x': boom.\n"
      ∧ download envC psA { path := some "n/x", offset := none, length := none }
          = .badRequest "Failed to determine canonical path of '/r/x': boom.\n"
      ∧ (read envC psA
            { path := some "n/x", offset := none, length := none }).response
          = .badRequest "Failed to determine canonical path of '/r/x': boom.\n" := by
  have h := resolve_error_status_amended envC psA
    { path := some "n/x", offset := none, length := none }
    "n/x" "Failed to determine canonical path of '/r/x': boom"
    rfl (by decide) (by decide)
  exact ⟨h.1, h.2.1, h.2.2 (-1) (-1) (by decide) (by decide)⟩

/-- Claim C6: with both /a and /a/b attached (and no entry for the full
path /a/b/x itself), resolving /a/b/x is decided entirely by the /a/b
entry: the result coincides with resolution in a namespace holding only
that entry, so the longest matching prefix wins and the /a entry is
irrelevant. -/
theorem resolve_longest_match_wins (env : Env) (ps : Paths) (ta tb : String)
    (_h1 : pathsLookup ps "/a" = some ta)
    (h2 : pathsLookup ps "/a/b" = some tb)
    (h3 : pathsLookup ps "/a/b/x" = none) :
    resolve env ps "/a/b/x" = resolve env [("/a/b", tb)] "/a/b/x" := by
  have e1 : pathJoinL (["x", "b", "a", ""] : List String).reverse = "/a/b/x" := by
    decide
  have e2 : pathJoinL (["b", "a", ""] : List String).reverse = "/a/b" := by
    decide
  have l1 : pathsLookup [("/a/b", tb)] "/a/b/x" = none := by
    simp [pathsLookup, List.lookup,
      show (("/a/b/x" == "/a/b") = false) from by decide]
  have l2 : pathsLookup [("/a/b", tb)] "/a/b" = some tb := by
    simp [pathsLookup, List.lookup]
  have hsplit : (splitSlash (strRemoveSlashSfx "/a/b/x")).reverse
      = (["x", "b", "a", ""] : List String) := by decide
  unfold resolve
  rw [hsplit]
  simp only [resolveLoop, e1, e2, h3, h2, l1, l2]

/-- Witness for C6: /a maps to /ta and /a/b to /tb; resolving /a/b/x
coincides with resolution in the namespace holding only the /a/b entry. -/
theorem resolve_longest_match_wins_witness :
    resolve env6 ps6 "/a/b/x" = resolve env6 [("/a/b", "/tb")] "/a/b/x" :=
  resolve_longest_match_wins env6 ps6 "/ta" "/tb"
    (by decide) (by decide) (by decide)

/-- Claim C4: on a resolvable non-directory file that opens and sizes
successfully, an absent offset parameter defaults to the file size, and any
offset at or past the size (including the defaulted one) makes the handler
close the file and answer success {offset: size, data: ""} immediately. -/
theorem read_offset_default_and_past_eof (env : Env) (ps : Paths)
    (req : Request) (p rp : String)
    (hp : req.path = some p) (hpe : p ≠ "")
    (hres : resolve env ps p = .found rp)
    (hdir : env.isdir rp = false)
    (hopen : env.openR rp = .ok ())
    (hsz : env.fileSize rp ≠ -1)
    (hlen : ∃ w, parseParam req.length = .ok w)
    (hoff : req.offset = none ∨
      ∃ s v, req.offset = some s ∧ numify s = .ok v
        ∧ (v = -1 ∨ env.fileSize rp ≤ v)) :
    read env ps req = ⟨.ok (env.fileSize rp) 0, true, true, none⟩ := by
  obtain ⟨w, hw⟩ := hlen
  obtain ⟨v, hv, hvc⟩ : ∃ v, parseParam req.offset = .ok v
      ∧ (v = -1 ∨ env.fileSize rp ≤ v) := by
    rcases hoff with h | ⟨s, v, hs, hn, hc⟩
    · exact ⟨-1, by simp [parseParam, h], Or.inl rfl⟩
    · exact ⟨v, by simp [parseParam, hs, hn], hc⟩
  have hge : env.fileSize rp ≤ (if v = -1 then env.fileSize rp else v) := by
    by_cases h1 : v = -1
    · simp [h1]
    · rcases hvc with h | h
      · exact absurd h h1
      · simpa [h1] using h
  simp [read, hp, hpe, hv, hw, readBody, hres, hdir, hopen, hsz, hge]

/-- Witness for C4: an offset-less read of the 20-byte file answers
{offset: 20, data: ""} with the descriptor closed. -/
theorem read_offset_default_and_past_eof_witness :
    read envA psA { path := some "n/f", offset := none, length := none }
      = ⟨.ok 20 0, true, true, none⟩ :=
  read_offset_default_and_past_eof envA psA
    { path := some "n/f", offset := none, length := none } "n/f" "/r/f"
    rfl (by decide) (by decide) (by decide) (by decide) (by decide)
    ⟨-1, by decide⟩ (Or.inl rfl)

/-- Amended C5: the bytes returned by a successful read are at most
16 × page size whenever the length parameter is absent, unparseable, or
parses to at least the -1 sentinel; a parsed length below -1 survives the
min-based cap as a negative value and escapes it through the size_t cast
(see the C5 counterexample). -/
theorem read_cap_amended (env : Env) (ps : Paths) (req : Request)
    (h1 : 0 ≤ env.pageSize) (h2 : 16 * env.pageSize < (2 : Int) ^ 64)
    (h3 : lenParamGE req = true) :
    ∀ off n, (read env ps req).response = .ok off n →
      (n : Int) ≤ 16 * env.pageSize := by
  intro off n h
  rw [show ((2 : Int) ^ 64) = 18446744073709551616 from by norm_num] at h2
  unfold read at h
  split at h
  · simp at h
  · split at h
    · simp at h
    · split at h
      · simp at h
      · next offset0 hoffeq =>
        split at h
        · simp at h
        · next len0 hleneq =>
          have hl : -1 ≤ len0 := by
            unfold lenParamGE at h3
            rw [hleneq] at h3
            simpa using h3
          unfold readBody at h
          dsimp only at h
          simp only [show ((2 : Int) ^ 64) = 18446744073709551616 from
            by norm_num] at h
          repeat' split at h
          all_goals dsimp only at h
          all_goals injection h
          all_goals omega

/-- Witness for amended C5: a read of 5 bytes from the 20-byte file with
page size 1 stays within the 16-byte cap. -/
theorem read_cap_amended_witness :
    ((5 : Nat) : Int) ≤ 16 * envA.pageSize :=
  read_cap_amended envA psA
    { path := some "n/f", offset := some "0", length := some "5" }
    (by decide) (by decide) (by decide) 0 5 (by decide)

/-- The slash-splitter never produces an empty token list. -/
lemma splitSlashChars_ne_nil (l : List Char) : splitSlashChars l ≠ [] := by
  cases l with
  | nil => simp [splitSlashChars]
  | cons c rest =>
    simp only [splitSlashChars]
    split
    · simp
    · split <;> simp

/-- Looking up the key just stored with hashmap assignment yields the
stored value. -/
lemma pathsLookup_hashmapPut_self (m : Paths) (k v : String) :
    pathsLookup (hashmapPut m k v) k = some v := by
  induction m with
  | nil => simp [hashmapPut, pathsLookup, List.lookup]
  | cons kv rest ih =>
    obtain ⟨k', v'⟩ := kv
    by_cases hk : k' = k
    · subst hk
      simp [hashmapPut, pathsLookup, List.lookup]
    · have hne : (k == k') = false := by
        simp [beq_eq_false_iff_ne]
        exact fun h => hk h.symm
      simp only [hashmapPut, if_neg hk, pathsLookup, List.lookup, hne]
      exact ih

/-- Every list is a prefix of itself under the boolean test. -/
lemma isPrefixOf_self {α : Type} [BEq α] [LawfulBEq α] (l : List α) :
    l.isPrefixOf l = true := by
  induction l with
  | nil => rfl
  | cons a t ih => simp [List.isPrefixOf, ih]

/-- Amended C8: the round trip holds for every successful attach(p, n)
whose virtual name, once its trailing slash is stripped, is re-produced
exactly by path::join of its slash-separated segments (in particular it has
no doubled slashes), provided realpath canonicalizes the stored directory
target with a trailing slash appended back to the target itself: resolve(n)
then returns the canonicalized p — directly when it is not a directory, and
through the directory branch with an empty suffix otherwise. A name like
a//b breaks the stated claim (see the counterexample). -/
theorem attach_resolve_roundtrip_amended (env : Env) (ps : Paths)
    (p n r : String)
    (hreal : env.realpath p = .ok r)
    (hacc : env.access r = .ok true)
    (hname : pathJoinL (splitSlash (strRemoveSlashSfx n)) = strRemoveSlashSfx n)
    (hdirreal : env.isdir r = true → env.realpath (strJoin2 r "") = .ok r) :
    ∃ ps', attach env ps p n = .ok ps' ∧ resolve env ps' n = .found r := by
  refine ⟨hashmapPut ps (strRemoveSlashSfx n) r, ?_, ?_⟩
  · simp [attach, hreal, hacc]
  · have hne : (splitSlash (strRemoveSlashSfx n)).reverse ≠ [] := by
      simp only [ne_eq, List.reverse_eq_nil_iff, splitSlash, List.map_eq_nil_iff]
      exact splitSlashChars_ne_nil _
    obtain ⟨t, ts, hts⟩ := List.exists_cons_of_ne_nil hne
    unfold resolve
    rw [hts]
    have hjoin : pathJoinL (t :: ts).reverse = strRemoveSlashSfx n := by
      rw [← hts, List.reverse_reverse]
      exact hname
    have hlk : pathsLookup (hashmapPut ps (strRemoveSlashSfx n) r)
        (pathJoinL (t :: ts).reverse) = some r := by
      rw [hjoin]
      exact pathsLookup_hashmapPut_self _ _ _
    by_cases hd : env.isdir r = true
    · simp only [resolveLoop, hlk, hd, if_true, hdirreal hd]
      simp [strStartsWith, isPrefixOf_self]
    · simp only [resolveLoop, hlk]
      simp [hd]

/-- Witness for amended C8: attaching the regular file /d as box and
resolving box immediately returns /d. -/
theorem attach_resolve_roundtrip_amended_witness :
    ∃ ps', attach envE [] "/d" "box" = .ok ps'
      ∧ resolve envE ps' "box" = .found "/d" :=
  attach_resolve_roundtrip_amended envE [] "/d" "box" "/d"
    (by decide) (by decide) (by decide) (by decide)

end MesosFiles
